import Mathlib

/-!
Shallow embedding of the kapacitor ServiceNow alert service
(src/services/servicenow/service.go) and proofs about its behaviour.

Strings are modelled as Lean `String` (a list of characters); the Go code
slices byte strings, and every property proved here is about the abstract
sequence of characters, which is faithful for the inputs the service
handles. Go `error` results are modelled with `Except String` / `Option
String`, carrying the error message.
-/

namespace ServiceNow

/-- Embeds the Go `Config` struct (fields consumed by this service:
Enabled, URL, Username, Password, Source, Global, StateChangesOnly). -/
structure Config where
  enabled : Bool := false
  url : String := ""
  username : String := ""
  password : String := ""
  source : String := ""
  globalFlag : Bool := false
  stateChangesOnly : Bool := false
deriving DecidableEq, Repr

/-- Embeds the Go `HandlerConfig` struct: per-call overrides for URL,
credentials and source, plus the five template source strings. -/
structure HandlerConfig where
  url : String := ""
  username : String := ""
  password : String := ""
  source : String := ""
  node : String := ""
  typeTemplate : String := ""
  resource : String := ""
  metricName : String := ""
  messageKey : String := ""
deriving DecidableEq, Repr

/-- Modelled from the spec: `alert.EventData` comes from the kapacitor
alert package, which is not under src/. Per spec section 3 it is
`(Name, TaskName : string, Fields : map, Tags : map)`; map values are
modelled as strings (the Go field values are printed through the template
engine as text). -/
structure EventData where
  name : String := ""
  taskName : String := ""
  fields : List (String × String) := []
  tags : List (String × String) := []
deriving DecidableEq, Repr

/-- Modelled from the spec: the internal alert level enumeration
(`alert.Level`, not under src/). Per spec section 3 it is
OK, Info, Warning, Critical, plus unknown/default values, which the
`other` constructor represents. -/
inductive Level where
  | OK
  | Info
  | Warning
  | Critical
  | other (n : Nat)
deriving DecidableEq, Repr

/-- Embeds the Go `dataInfo` struct: the template rendering context,
built from the alert ID and the event data. -/
structure DataInfo where
  ID : String := ""
  name : String := ""
  taskName : String := ""
  fields : List (String × String) := []
  tags : List (String × String) := []
deriving DecidableEq, Repr

/-- Embeds the construction of `dataInfo` inside `preparePost`. -/
def dataInfoOf (alertID : String) (data : EventData) : DataInfo :=
  { ID := alertID
    name := data.name
    taskName := data.taskName
    fields := data.fields
    tags := data.tags }

/-- Embeds the Go `Alert` struct: the outbound notification record, in
the order its fields are declared (which is the JSON field order). -/
structure Alert where
  source : String
  node : String
  typeField : String
  resource : String
  metricName : String
  messageKey : String
  severity : String
  description : String
deriving DecidableEq, Repr

/-- Embeds the constant `usualCutoff = 100`. -/
def usualCutoff : Nat := 100

/-- Embeds the `cutoff` closure in `preparePost`:
`text[:min(max, len(text))]`, a prefix cut. The Go code clamps the slice
index with min (computed via float64, exact for any realistic length)
because slicing past the end panics; `List.take` clamps already, so
taking `max` characters is the same function. The limit is modelled as a
natural number since every call site passes a positive constant. -/
def cutoff (text : String) (max : Nat) : String :=
  { data := text.data.take max }

/-- Embeds the severity switch in `preparePost`: `severity := 0` then
a switch where OK falls through to Info giving 5, Warning gives 4,
Critical gives 1, and every other value leaves the initial 0. -/
def severityOf (level : Level) : Nat :=
  match level with
  | Level.OK => 5
  | Level.Info => 5
  | Level.Warning => 4
  | Level.Critical => 1
  | Level.other _ => 0

/-!
Model of the Go text/template engine as used by this service. The
service feeds user templates to `text.New(name).Parse(template)` and
`Execute(&buffer, &dataInfo)`. The modelled subset covers what the
`dataInfo` context can express: literal text and dot-path actions
(for example a template holding an ID action renders the alert ID).
Parsing splits the template into literal chunks and actions and fails on
an unclosed action, a non-path action, or a malformed path — matching
the parse errors of the Go engine on this subset (the bare-dot action is
outside the subset). Execution writes chunks left to right into the
buffer and stops at the first failing field reference, returning the
text written so far together with the execution error — matching how
Execute fills the buffer incrementally before returning an error. A
missing map key is not an execution error: the engine prints the
placeholder text for a missing value, as Go does for map indexing.
-/

/-- Piece of a parsed template: literal text or a dot-path action. -/
inductive Chunk where
  | lit (s : String)
  | field (path : List String)
deriving DecidableEq, Repr

/-- True for the characters Go accepts in a field name. -/
def isIdentChar (c : Char) : Bool := c.isAlphanum || c = '_'

/-- Splits an action body on dots; `acc` holds the current segment in
reverse. -/
def splitDots (acc : List Char) : List Char → List (List Char)
  | [] => [acc.reverse]
  | '.' :: rest => acc.reverse :: splitDots [] rest
  | c :: rest => splitDots (c :: acc) rest

/-- Drops leading and trailing spaces of an action body. -/
def trimSpaces (cs : List Char) : List Char :=
  ((cs.dropWhile (fun c => c = ' ')).reverse.dropWhile (fun c => c = ' ')).reverse

/-- Parses the text between the action delimiters as a dot path. -/
def parsePath (cs : List Char) : Except String (List String) :=
  match trimSpaces cs with
  | '.' :: rest =>
    if rest = [] then Except.error "unsupported bare dot action"
    else
      let segs := splitDots [] rest
      if segs.all (fun s => !s.isEmpty && s.all isIdentChar) then
        Except.ok (segs.map (fun s => { data := s }))
      else Except.error "bad character in action"
  | _ => Except.error "function not defined"

/-- Turns the reversed literal accumulator into a chunk list. -/
def litOf (acc : List Char) : List Chunk :=
  if acc = [] then [] else [Chunk.lit { data := acc.reverse }]

/-- Scanner splitting a template into chunks. `inAction` tells whether
the scanner is between action delimiters; `acc` holds the pending text
in reverse. A double opening brace starts an action, a double closing
brace ends it; everything else is literal text. -/
def scan (inAction : Bool) (acc : List Char) : List Char → Except String (List Chunk)
  | [] =>
    if inAction then Except.error "unclosed action in template"
    else Except.ok (litOf acc)
  | '\x7b' :: '\x7b' :: rest =>
    if inAction then scan inAction ('\x7b' :: '\x7b' :: acc) rest
    else
      match scan true [] rest with
      | Except.error e => Except.error e
      | Except.ok tail => Except.ok (litOf acc ++ tail)
  | '\x7d' :: '\x7d' :: rest =>
    if inAction then
      match parsePath acc.reverse, scan false [] rest with
      | Except.error e, _ => Except.error e
      | _, Except.error e => Except.error e
      | Except.ok p, Except.ok tail => Except.ok (Chunk.field p :: tail)
    else scan inAction ('\x7d' :: '\x7d' :: acc) rest
  | c :: rest => scan inAction (c :: acc) rest

/-- Parses a whole template string into chunks. -/
def parseChunks (template : String) : Except String (List Chunk) :=
  scan false [] template.data

/-- Looks up a key in an association list, first binding wins. -/
def lookupStr (m : List (String × String)) (k : String) : Option String :=
  (m.find? (fun p => p.1 == k)).map (fun p => p.2)

/-- Resolves a dot path against the dataInfo context. The five fields of
dataInfo resolve directly; a map field resolves one key further, a
missing key printing the missing-value placeholder; every other path is
an execution error (an unknown field, or a field of a string value). -/
def resolvePath (di : DataInfo) : List String → Except String String
  | ["ID"] => Except.ok di.ID
  | ["Name"] => Except.ok di.name
  | ["TaskName"] => Except.ok di.taskName
  | ["Fields", k] => Except.ok ((lookupStr di.fields k).getD "<no value>")
  | ["Tags", k] => Except.ok ((lookupStr di.tags k).getD "<no value>")
  | _ => Except.error "cannot evaluate field in type dataInfo"

/-- Executes parsed chunks against the context: returns the text written
to the buffer and the first execution error, if any; chunks after a
failing one are not written. -/
def executeChunks (di : DataInfo) : List Chunk → String × Option String
  | [] => ("", none)
  | Chunk.lit s :: rest =>
    let r := executeChunks di rest
    (s ++ r.1, r.2)
  | Chunk.field p :: rest =>
    match resolvePath di p with
    | Except.error e => ("", some e)
    | Except.ok v =>
      let r := executeChunks di rest
      (v ++ r.1, r.2)

/-- Embeds the render closure in `preparePost`. For an empty template it
returns the empty string with no error, parsing nothing. For a non-empty
template it parses (a parse error is returned), then executes; the
source never binds the error returned by Execute — the error check
after the Execute call re-reads the already-nil parse error — so an
execution failure is dropped and the buffer contents (everything written
before the failure) are returned with a nil error. -/
def render (di : DataInfo) (template : String) : Except String String :=
  if template ≠ "" then
    match parseChunks template with
    | Except.error e => Except.error e
    | Except.ok chunks => Except.ok (executeChunks di chunks).1
  else Except.ok ""

/-- Hexadecimal digit for a value below 16, lower case. -/
def hexDigit (n : Nat) : Char :=
  if n < 10 then Char.ofNat (48 + n) else Char.ofNat (87 + n)

/-- Escapes one character the way Go encoding/json encodes string
characters with its default HTML escaping: quote and backslash get a
backslash escape, newline, carriage return and tab their short escapes,
the HTML characters and the remaining control characters a u-escape. -/
def jsonEscapeChar (c : Char) : List Char :=
  if c = '"' then ['\\', '"']
  else if c = '\\' then ['\\', '\\']
  else if c = '\n' then ['\\', 'n']
  else if c = '\r' then ['\\', 'r']
  else if c = '\t' then ['\\', 't']
  else if c = '<' then ['\\', 'u', '0', '0', '3', 'c']
  else if c = '>' then ['\\', 'u', '0', '0', '3', 'e']
  else if c = '&' then ['\\', 'u', '0', '0', '2', '6']
  else if c.toNat < 32 then
    ['\\', 'u', '0', '0', hexDigit (c.toNat / 16), hexDigit (c.toNat % 16)]
  else [c]

/-- Encodes a string as a JSON string literal. -/
def jsonQuote (s : String) : String :=
  { data := '"' :: s.data.flatMap jsonEscapeChar ++ ['"'] }

/-- Embeds json.Marshal of the `Alert` struct: a JSON object whose
members appear in struct field order under the declared json tags. -/
def marshalAlert (a : Alert) : String :=
  "\x7b\"source\":" ++ jsonQuote a.source ++
  ",\"node\":" ++ jsonQuote a.node ++
  ",\"type\":" ++ jsonQuote a.typeField ++
  ",\"resource\":" ++ jsonQuote a.resource ++
  ",\"metric_name\":" ++ jsonQuote a.metricName ++
  ",\"message_key\":" ++ jsonQuote a.messageKey ++
  ",\"severity\":" ++ jsonQuote a.severity ++
  ",\"description\":" ++ jsonQuote a.description ++ "\x7d"

/-- Models Go net/url Parse followed by String on the result (library
code outside this repository): Parse rejects a URL holding an ASCII
control character, and for the URLs this service receives the round
trip returns the input unchanged. -/
def parseURL (url : String) : Except String String :=
  if url.data.all (fun c => decide (32 ≤ c.toNat ∧ c.toNat ≠ 127)) then
    Except.ok url
  else Except.error "net/url: invalid control character in URL"

/-- Embeds the record construction in `preparePost`: source fallback,
rendering of the five templates in source order with fail-fast error
returns, message key fallback to the alert ID, the severity switch, the
per-field cutoffs and strconv.Itoa on the severity. This is the part of
the source function between the URL handling and json.Marshal. -/
def prepareRecord (c : Config) (alertID message : String) (level : Level)
    (data : EventData) (hc : HandlerConfig) : Except String Alert :=
  let source := if hc.source = "" then c.source else hc.source
  let di := dataInfoOf alertID data
  match render di hc.node with
  | Except.error e => Except.error e
  | Except.ok node =>
  match render di hc.typeTemplate with
  | Except.error e => Except.error e
  | Except.ok metricType =>
  match render di hc.resource with
  | Except.error e => Except.error e
  | Except.ok resource =>
  match render di hc.metricName with
  | Except.error e => Except.error e
  | Except.ok metricName =>
  match render di hc.messageKey with
  | Except.error e => Except.error e
  | Except.ok renderedKey =>
    let messageKey := if renderedKey = "" then alertID else renderedKey
    Except.ok
      { source := cutoff source usualCutoff
        node := cutoff node usualCutoff
        typeField := cutoff metricType usualCutoff
        resource := cutoff resource usualCutoff
        metricName := cutoff metricName usualCutoff
        messageKey := cutoff messageKey 1024
        severity := toString (severityOf level)
        description := cutoff message 4000 }

/-- Embeds `Service.preparePost`: the Enabled check comes first, then
the URL fallback and parse, then the record construction and
json.Marshal. Marshaling a record of plain strings cannot fail, so the
wrapped marshal error branch of the source is unreachable in the model.
Returns the post URL and the serialized body. -/
def preparePost (c : Config) (url alertID message : String) (level : Level)
    (data : EventData) (hc : HandlerConfig) : Except String (String × String) :=
  if !c.enabled then Except.error "service is not enabled"
  else
    let effURL := if url = "" then c.url else url
    match parseURL effURL with
    | Except.error e => Except.error e
    | Except.ok u =>
      match prepareRecord c alertID message level data hc with
      | Except.error e => Except.error e
      | Except.ok a => Except.ok (u, marshalAlert a)

/-- Outbound HTTP request as this service builds it. -/
structure HttpRequest where
  url : String
  body : String
  contentType : String
  basicAuth : Option (String × String)
deriving DecidableEq, Repr

/-- HTTP response given to the service: a status code and the outcome
of reading the body (reading can fail with an I/O error). -/
structure HttpResponse where
  statusCode : Nat
  body : Except String String
deriving Repr

/-- Skips JSON whitespace. -/
def skipWs (cs : List Char) : List Char :=
  cs.dropWhile (fun c => c == ' ' || c == '\n' || c == '\t' || c == '\r')

/-- Reads the remainder of a JSON string literal after its opening
quote, handling the basic escapes; returns the string and the rest. -/
def scanJsonString (acc : List Char) : List Char → Option (String × List Char)
  | [] => none
  | '\\' :: esc =>
    match esc with
    | '"' :: rest => scanJsonString ('"' :: acc) rest
    | '\\' :: rest => scanJsonString ('\\' :: acc) rest
    | '/' :: rest => scanJsonString ('/' :: acc) rest
    | 'n' :: rest => scanJsonString ('\n' :: acc) rest
    | 't' :: rest => scanJsonString ('\t' :: acc) rest
    | 'r' :: rest => scanJsonString ('\r' :: acc) rest
    | _ => none
  | '"' :: rest => some ({ data := acc.reverse }, rest)
  | c :: rest => scanJsonString (c :: acc) rest

/-- True for a JSON primitive literal token: true, false, null or a
number shape. -/
def isPrimTok (cs : List Char) : Bool :=
  cs = "true".data || cs = "false".data || cs = "null".data ||
  (!cs.isEmpty &&
    cs.all (fun c => c.isDigit || c == '-' || c == '+' || c == '.' || c == 'e' || c == 'E'))

/-- Parses one JSON member value of the modelled subset: a string
(returned) or a primitive literal (present but not a string). -/
def parseJsonValue (cs : List Char) : Option (Option String × List Char) :=
  match cs with
  | '"' :: rest =>
    match scanJsonString [] rest with
    | some sv => some (some sv.1, sv.2)
    | none => none
  | _ =>
    let tok := cs.takeWhile
      (fun c => !(c == ',' || c == '\x7d' || c == ' ' || c == '\n' || c == '\t' || c == '\r'))
    if isPrimTok tok then some (none, cs.drop tok.length) else none

/-- Parses the members of a JSON object after its opening brace. Fuel
bounds the recursion; callers pass the input length, which suffices
since every member consumes at least one character. Content after the
closing brace is ignored, as a json Decoder reads a single value. -/
def parseMembers (fuel : Nat) (cs : List Char) :
    Option (List (String × Option String)) :=
  match fuel with
  | 0 => none
  | fuel + 1 =>
    match skipWs cs with
    | '"' :: rest =>
      match scanJsonString [] rest with
      | none => none
      | some kv =>
        match skipWs kv.2 with
        | ':' :: rest3 =>
          match parseJsonValue (skipWs rest3) with
          | none => none
          | some vr =>
            match skipWs vr.2 with
            | ',' :: rest5 =>
              match parseMembers fuel rest5 with
              | none => none
              | some kvs => some ((kv.1, vr.1) :: kvs)
            | '\x7d' :: _ => some [(kv.1, vr.1)]
            | _ => none
        | _ => none
    | _ => none

/-- Models the json Decode in `Service.Alert` of the body into a struct
with one string field tagged error: on the modelled subset (an object
whose member values are strings or primitive literals) decoding
overwrites the pre-set field exactly when an error member with a string
value is present. Every other case — not an object, malformed, member
absent, member not a string — keeps the fallback message, matching the
source, which ignores the Decode error itself. -/
def decodeErrorField (body : String) : Option String :=
  match skipWs body.data with
  | '\x7b' :: rest =>
    match skipWs rest with
    | '\x7d' :: _ => none
    | _ =>
      match parseMembers (rest.length + 1) rest with
      | none => none
      | some kvs =>
        match kvs.find? (fun p => p.1 == "error") with
        | some (_, some v) => some v
        | _ => none
  | _ => none

/-- Embeds the pre-set response error text in `Service.Alert`. -/
def fallbackMessage (status : Nat) (body : String) : String :=
  "failed to understand ServiceNow response. code: " ++ toString status ++
    " content: " ++ body

/-- Embeds the response handling of `Service.Alert`: status 201 is
success with no error; otherwise the body is read (a read failure is
returned directly), and the response struct pre-set with the fallback
message is decoded from the body, its error field becoming the returned
error. -/
def handleResponse (status : Nat) (bodyRead : Except String String) : Option String :=
  if status ≠ 201 then
    match bodyRead with
    | Except.error e => some e
    | Except.ok body => some ((decodeErrorField body).getD (fallbackMessage status body))
  else none

/-- Embeds `Service.Alert`: prepares the post, then issues one HTTP POST
with the JSON content type. BASIC auth is attached from the
configuration credentials when both are non-empty; the credential
fields of the handler config are never read by the source. Returns the
error outcome and the list of issued requests; the transport function
stands for the HTTP client. -/
def serviceAlert (c : Config) (url alertID message : String) (level : Level)
    (data : EventData) (hc : HandlerConfig)
    (transport : HttpRequest → HttpResponse) : Option String × List HttpRequest :=
  match preparePost c url alertID message level data hc with
  | Except.error e => (some e, [])
  | Except.ok pu =>
    let req : HttpRequest :=
      { url := pu.1
        body := pu.2
        contentType := "application/json"
        basicAuth :=
          if c.username ≠ "" ∧ c.password ≠ "" then some (c.username, c.password)
          else none }
    (handleResponse (transport req).statusCode (transport req).body, [req])

/-- Argument of `Service.Update`: Go hands the service a slice of
interface values; a value either is a `Config` or has some other
dynamic type, whose name only feeds the error text. -/
inductive UpdateArg where
  | config (c : Config)
  | other (typeName : String)
deriving DecidableEq, Repr

/-- Embeds `Service.Update` over the stored configuration: a slice of
length other than one is rejected, a single non-Config value is
rejected, a single Config is stored. Returns the stored configuration
after the call and the error outcome. -/
def update (stored : Config) (args : List UpdateArg) : Config × Option String :=
  if args.length ≠ 1 then
    (stored, some ("expected only one new config object, got " ++ toString args.length))
  else
    match args with
    | [UpdateArg.config c] => (c, none)
    | _ => (stored, some "expected config object to be of type servicenow.Config")

theorem take_min_length (l : List Char) (m : Nat) :
    l.take (min m l.length) = l.take m := by
  rcases Nat.le_total m l.length with h | h
  · rw [Nat.min_eq_left h]
  · rw [Nat.min_eq_right h, List.take_of_length_le h,
      List.take_of_length_le (Nat.le_refl _) ]

theorem cutoff_data (s : String) (m : Nat) :
    (cutoff s m).data = s.data.take m := rfl

theorem cutoff_length (s : String) (m : Nat) :
    (cutoff s m).length = min m s.length := by
  show (s.data.take m).length = min m s.data.length
  rw [List.length_take]

/-- Claim C4: for all strings s and limits m, cutoff(s, m) has length
min(m, length(s)), equals the prefix of s of that length, and is
idempotent; it is a total function (never errors) and never pads. -/
theorem cutoff_spec (s : String) (m : Nat) :
    (cutoff s m).length = min m s.length ∧
    (cutoff s m).data = s.data.take (min m s.length) ∧
    cutoff (cutoff s m) m = cutoff s m := by
  refine ⟨cutoff_length s m, ?_, ?_⟩
  · rw [cutoff_data]
    exact (take_min_length s.data m).symm
  · show ({ data := (s.data.take m).take m } : String) = { data := s.data.take m }
    rw [List.take_take, Nat.min_self]

/-- Configuration of the spec scenarios. -/
def cfgScenario : Config :=
  { enabled := true, url := "https://sn.example/api", source := "cfg-src" }

/-- Empty event data, as a test alert carries. -/
def dataEmpty : EventData := {}

/-- Empty handler config: every override and template left empty. -/
def hcEmpty : HandlerConfig := {}

/-- Transport stub answering 201 Created with an empty body. -/
def transport201 : HttpRequest → HttpResponse :=
  fun _ => { statusCode := 201, body := Except.ok "" }

/-- Claim C3: the severity mapper is a pure total function on the
level: OK and Info give 5, Warning gives 4, Critical gives 1, and every
other (unknown) level value gives 0. Totality is by construction:
`severityOf` is a total Lean function with no error result. -/
theorem severityOf_spec :
    severityOf Level.OK = 5 ∧
    severityOf Level.Info = 5 ∧
    severityOf Level.Warning = 4 ∧
    severityOf Level.Critical = 1 ∧
    ∀ n : Nat, severityOf (Level.other n) = 0 := by
  refine ⟨rfl, rfl, rfl, rfl, fun n => rfl⟩

/-- Claim C5: with configuration Enabled true, the scenario URL and
source cfg-src, an empty override, alert ID a1, message boom and level
Critical, the prepared POST goes to the configuration URL and its body
is exactly the expected JSON object, fields in declaration order and
the severity string encoded. -/
theorem preparePost_scenario :
    preparePost cfgScenario "" "a1" "boom" Level.Critical dataEmpty hcEmpty =
      Except.ok ("https://sn.example/api",
        "\x7b\"source\":\"cfg-src\",\"node\":\"\",\"type\":\"\",\"resource\":\"\",\"metric_name\":\"\",\"message_key\":\"a1\",\"severity\":\"1\",\"description\":\"boom\"\x7d") :=
  rfl

/-- Claim C7: with Enabled false every dispatch fails immediately with
the service disabled error and issues zero HTTP requests, for every
URL, alert, level, event data, override and transport. -/
theorem disabled_no_requests (c : Config) (url alertID message : String)
    (level : Level) (data : EventData) (hc : HandlerConfig)
    (transport : HttpRequest → HttpResponse) (h : c.enabled = false) :
    serviceAlert c url alertID message level data hc transport =
      (some "service is not enabled", []) := by
  simp [serviceAlert, preparePost, h]

/-- Witness for disabled_no_requests at a concrete disabled
configuration. -/
theorem disabled_no_requests_witness :
    serviceAlert { cfgScenario with enabled := false } "" "a1" "boom"
        Level.Critical dataEmpty hcEmpty transport201 =
      (some "service is not enabled", []) :=
  disabled_no_requests { cfgScenario with enabled := false } "" "a1" "boom"
    Level.Critical dataEmpty hcEmpty transport201 rfl

/-- Claim C1, evaluated at the failing input: with the override
credentials ou and op and the configuration credentials cu and cp all
non-empty, the issued request carries BASIC auth built from the
configuration credentials, not from the override — the source never
reads the credential fields of the handler config, although their own
documentation says a non-empty override replaces the configuration
value. -/
theorem alert_ignores_override_credentials :
    ((serviceAlert { cfgScenario with username := "cu", password := "cp" }
        "" "a1" "boom" Level.Critical dataEmpty
        { hcEmpty with username := "ou", password := "op" }
        transport201).2.map (fun r => r.basicAuth)) = [some ("cu", "cp")] ∧
    (some ("cu", "cp") : Option (String × String)) ≠ some ("ou", "op") :=
  ⟨rfl, by decide⟩

/-- Claim C2, evaluated at the failing input: the template consisting of
one action on the unknown field Bogus parses, its execution raises an
error and writes nothing, yet render returns the buffer contents with
no error — the source discards the value returned by Execute and
re-checks the already-nil parse error — and the whole record
preparation succeeds where the claim requires the dispatch attempt to
fail. -/
theorem render_swallows_execution_error :
    parseChunks "\x7b\x7b.Bogus\x7d\x7d" = Except.ok [Chunk.field ["Bogus"]] ∧
    (executeChunks (dataInfoOf "a1" dataEmpty) [Chunk.field ["Bogus"]]).2 =
      some "cannot evaluate field in type dataInfo" ∧
    render (dataInfoOf "a1" dataEmpty) "\x7b\x7b.Bogus\x7d\x7d" = Except.ok "" ∧
    (prepareRecord cfgScenario "a1" "boom" Level.Critical dataEmpty
      { hcEmpty with node := "\x7b\x7b.Bogus\x7d\x7d" }).isOk = true :=
  ⟨rfl, rfl, rfl, rfl⟩

/-- Claim C10: update succeeds exactly when given one value of the
Config type, which becomes the stored configuration; every erroneous
argument list — wrong length or wrong dynamic type — yields an error
and leaves the stored configuration unchanged. -/
theorem update_spec (stored : Config) (args : List UpdateArg) :
    (∀ c, args = [UpdateArg.config c] → update stored args = (c, none)) ∧
    ((∀ c, args ≠ [UpdateArg.config c]) →
      (update stored args).1 = stored ∧ (update stored args).2.isSome = true) := by
  constructor
  · rintro c rfl
    simp [update]
  · intro h
    match args with
    | [] => simp [update]
    | [UpdateArg.config c] => exact absurd rfl (h c)
    | [UpdateArg.other t] => simp [update]
    | x :: y :: rest => simp [update]

/-- Witness for update_spec: a single argument of a non-Config type is
rejected and the stored configuration survives. -/
theorem update_spec_witness :
    (update cfgScenario [UpdateArg.other "int"]).1 = cfgScenario ∧
    (update cfgScenario [UpdateArg.other "int"]).2.isSome = true :=
  (update_spec cfgScenario [UpdateArg.other "int"]).2
    (fun c hc => by simp at hc)

theorem fallbackMessage_contains (status : Nat) (body : String) :
    (toString status).data <:+: (fallbackMessage status body).data ∧
    body.data <:+: (fallbackMessage status body).data := by
  constructor
  · refine ⟨"failed to understand ServiceNow response. code: ".data,
      (" content: " ++ body).data, ?_⟩
    simp [fallbackMessage, String.data_append]
  · refine ⟨("failed to understand ServiceNow response. code: " ++ toString status ++
      " content: ").data, [], ?_⟩
    simp [fallbackMessage, String.data_append]

/-- Claim C6: on a response whose status is not 201 the dispatch reads
the whole body — an I/O failure while reading takes precedence and is
returned directly — then decodes the error member of the body: when
the decode yields a string, that exact string is the dispatch error;
otherwise the error is the fallback message, which contains the status
code and the raw body text. -/
theorem alert_response_errors (c : Config) (url alertID message : String)
    (level : Level) (data : EventData) (hc : HandlerConfig)
    (resp : HttpResponse) (pu : String × String)
    (hprep : preparePost c url alertID message level data hc = Except.ok pu)
    (hstatus : resp.statusCode ≠ 201) :
    (∀ e, resp.body = Except.error e →
      (serviceAlert c url alertID message level data hc (fun _ => resp)).1 = some e) ∧
    (∀ body e, resp.body = Except.ok body → decodeErrorField body = some e →
      (serviceAlert c url alertID message level data hc (fun _ => resp)).1 = some e) ∧
    (∀ body, resp.body = Except.ok body → decodeErrorField body = none →
      (serviceAlert c url alertID message level data hc (fun _ => resp)).1 =
          some (fallbackMessage resp.statusCode body) ∧
        (toString resp.statusCode).data <:+: (fallbackMessage resp.statusCode body).data ∧
        body.data <:+: (fallbackMessage resp.statusCode body).data) := by
  have hres : (serviceAlert c url alertID message level data hc (fun _ => resp)).1 =
      handleResponse resp.statusCode resp.body := by
    simp [serviceAlert, hprep]
  refine ⟨?_, ?_, ?_⟩
  · intro e he
    rw [hres, he]
    simp [handleResponse, hstatus]
  · intro body e hb hd
    rw [hres, hb]
    simp [handleResponse, hstatus, hd]
  · intro body hb hd
    refine ⟨?_, fallbackMessage_contains resp.statusCode body⟩
    rw [hres, hb]
    simp [handleResponse, hstatus, hd]

/-- Witness for alert_response_errors: status 500 with the error body
of the spec scenario yields exactly the decoded message. -/
theorem alert_response_errors_witness :
    (serviceAlert cfgScenario "" "a1" "boom" Level.Critical dataEmpty hcEmpty
        (fun _ => { statusCode := 500,
                    body := Except.ok "\x7b\"error\":\"bad request\"\x7d" })).1 =
      some "bad request" :=
  (alert_response_errors cfgScenario "" "a1" "boom" Level.Critical dataEmpty hcEmpty
      { statusCode := 500, body := Except.ok "\x7b\"error\":\"bad request\"\x7d" }
      ("https://sn.example/api",
        "\x7b\"source\":\"cfg-src\",\"node\":\"\",\"type\":\"\",\"resource\":\"\",\"metric_name\":\"\",\"message_key\":\"a1\",\"severity\":\"1\",\"description\":\"boom\"\x7d")
      rfl (by decide)).2.1
    "\x7b\"error\":\"bad request\"\x7d" "bad request" rfl rfl

/-- Alert identifier of 1025 characters, one above the 1024 character
message key limit. -/
def longID : String := { data := List.replicate 1025 'a' }

/-- Claim C8 counterexample: with the message key template empty the
rendered message key is empty and the record preparation succeeds, yet
the message key placed in the notification is the 1024 character cutoff
of the 1025 character alert ID — not the alert ID. -/
theorem messageKey_fallback_counterexample :
    render (dataInfoOf longID dataEmpty) hcEmpty.messageKey = Except.ok "" ∧
    (prepareRecord cfgScenario longID "boom" Level.Critical dataEmpty hcEmpty).map
        (fun a => a.messageKey) = Except.ok (cutoff longID 1024) ∧
    cutoff longID 1024 ≠ longID := by
  refine ⟨rfl, rfl, fun h => ?_⟩
  have hd := congrArg (fun s : String => s.data.length) h
  simp only [cutoff_data, List.length_take] at hd
  have hlen : longID.data.length = 1025 := by
    show (List.replicate 1025 'a').length = 1025
    rw [List.length_replicate]
  rw [hlen] at hd
  omega

/-- Claim C8 amended: when the record preparation succeeds and the
rendered message key is empty, the message key placed in the
notification is the 1024 character cutoff of the alert ID, so it equals
the alert ID whenever the ID is at most 1024 characters long. -/
theorem messageKey_fallback (c : Config) (alertID message : String)
    (level : Level) (data : EventData) (hc : HandlerConfig) (a : Alert)
    (hok : prepareRecord c alertID message level data hc = Except.ok a)
    (hkey : render (dataInfoOf alertID data) hc.messageKey = Except.ok "")
    (hlen : alertID.length ≤ 1024) :
    a.messageKey = alertID := by
  have hcut : cutoff alertID 1024 = alertID := by
    show ({ data := alertID.data.take 1024 } : String) = alertID
    rw [List.take_of_length_le hlen]
  simp only [prepareRecord] at hok
  rw [hkey] at hok
  cases h1 : render (dataInfoOf alertID data) hc.node <;> rw [h1] at hok
  · simp at hok
  cases h2 : render (dataInfoOf alertID data) hc.typeTemplate <;> rw [h2] at hok
  · simp at hok
  cases h3 : render (dataInfoOf alertID data) hc.resource <;> rw [h3] at hok
  · simp at hok
  cases h4 : render (dataInfoOf alertID data) hc.metricName <;> rw [h4] at hok
  · simp at hok
  simp at hok
  rw [← hok]
  exact hcut

/-- Record prepared for the spec scenario inputs. -/
def recScenario : Alert :=
  { source := "cfg-src", node := "", typeField := "", resource := "",
    metricName := "", messageKey := "a1", severity := "1", description := "boom" }

/-- Witness for messageKey_fallback at the scenario inputs: empty
message key template and the short alert ID a1. -/
theorem messageKey_fallback_witness :
    prepareRecord cfgScenario "a1" "boom" Level.Critical dataEmpty hcEmpty =
        Except.ok recScenario ∧ recScenario.messageKey = "a1" :=
  ⟨rfl, messageKey_fallback cfgScenario "a1" "boom" Level.Critical dataEmpty hcEmpty
    recScenario rfl rfl (by decide)⟩

theorem render_ok_parse (di : DataInfo) (t v : String)
    (h : render di t = Except.ok v) :
    t = "" ∨ (parseChunks t).isOk = true := by
  by_cases ht : t = ""
  · exact Or.inl ht
  · right
    unfold render at h
    rw [if_pos ht] at h
    cases hp : parseChunks t <;> rw [hp] at h
    · exact Except.noConfusion h
    · rfl

theorem prepareRecord_renders_ok (c : Config) (alertID message : String)
    (level : Level) (data : EventData) (hc : HandlerConfig) (a : Alert)
    (hok : prepareRecord c alertID message level data hc = Except.ok a) :
    ∀ t ∈ [hc.node, hc.typeTemplate, hc.resource, hc.metricName, hc.messageKey],
      ∃ v, render (dataInfoOf alertID data) t = Except.ok v := by
  simp only [prepareRecord] at hok
  cases h1 : render (dataInfoOf alertID data) hc.node <;> rw [h1] at hok
  · simp at hok
  cases h2 : render (dataInfoOf alertID data) hc.typeTemplate <;> rw [h2] at hok
  · simp at hok
  cases h3 : render (dataInfoOf alertID data) hc.resource <;> rw [h3] at hok
  · simp at hok
  cases h4 : render (dataInfoOf alertID data) hc.metricName <;> rw [h4] at hok
  · simp at hok
  cases h5 : render (dataInfoOf alertID data) hc.messageKey <;> rw [h5] at hok
  · simp at hok
  intro t ht
  simp only [List.mem_cons, List.not_mem_nil, or_false] at ht
  rcases ht with rfl | rfl | rfl | rfl | rfl
  exacts [⟨_, h1⟩, ⟨_, h2⟩, ⟨_, h3⟩, ⟨_, h4⟩, ⟨_, h5⟩]

theorem preparePost_ok_record (c : Config) (url alertID message : String)
    (level : Level) (data : EventData) (hc : HandlerConfig) (v : String × String)
    (h : preparePost c url alertID message level data hc = Except.ok v) :
    ∃ a, prepareRecord c alertID message level data hc = Except.ok a := by
  simp only [preparePost] at h
  cases hen : c.enabled <;> rw [hen] at h
  · simp at h
  cases hu : parseURL (if url = "" then c.url else url) <;>
    simp only [Bool.not_true, Bool.false_eq_true, if_false, hu] at h
  · exact Except.noConfusion h
  cases hr : prepareRecord c alertID message level data hc <;> rw [hr] at h
  · exact Except.noConfusion h
  · exact ⟨_, rfl⟩

/-- Claim C9: an empty template renders to the empty string with no
error and no parsing; a non-empty template is compiled, a compile error
becoming the render result; and preparation succeeds only when every
one of the five templates is empty or parses — a compile error in any
of them aborts the whole attempt. -/
theorem template_optional_compile_spec :
    (∀ di : DataInfo, render di "" = Except.ok "") ∧
    (∀ (di : DataInfo) (t e : String), parseChunks t = Except.error e →
      render di t = Except.error e) ∧
    (∀ (c : Config) (url alertID message : String) (level : Level)
        (data : EventData) (hc : HandlerConfig) (v : String × String),
      preparePost c url alertID message level data hc = Except.ok v →
      ∀ t ∈ [hc.node, hc.typeTemplate, hc.resource, hc.metricName, hc.messageKey],
        t = "" ∨ (parseChunks t).isOk = true) := by
  refine ⟨fun di => rfl, ?_, ?_⟩
  · intro di t e h
    have ht : t ≠ "" := by
      intro h0
      rw [h0] at h
      exact Except.noConfusion h
    unfold render
    rw [if_pos ht, h]
  · intro c url alertID message level data hc v h t ht
    obtain ⟨a, ha⟩ :=
      preparePost_ok_record c url alertID message level data hc v h
    obtain ⟨w, hw⟩ :=
      prepareRecord_renders_ok c alertID message level data hc a ha t ht
    exact render_ok_parse (dataInfoOf alertID data) t w hw

/-- Witness for template_optional_compile_spec: an unclosed action is a
compile error and render returns it. -/
theorem template_optional_compile_spec_witness :
    render (dataInfoOf "a1" dataEmpty) "\x7b\x7b" =
      Except.error "unclosed action in template" :=
  template_optional_compile_spec.2.1 (dataInfoOf "a1" dataEmpty) "\x7b\x7b"
    "unclosed action in template" rfl

end ServiceNow
